import Mathlib

/-!
Verification of the intent-classification / action-planning core of the
Nexus conversational agent (fastapi-backend: planner.py, memory.py, main.py).

The Python source is shallowly embedded: strings are processed as lists of
characters, the `re` patterns used by the classifier are modelled by a small
pattern language with an executable leftmost-match search, dictionaries are
association lists preserving insertion order, and exceptions are modelled
with `Except`.  ASCII-only lowering and whitespace stripping model
`str.lower()` / `str.strip()` (all text handled by the classifier is ASCII).
-/

namespace Nexus

/-- Whitespace characters stripped by Python `str.strip()` (ASCII range). -/
def isSpaceChar (c : Char) : Bool :=
  c = ' ' || c = '\t' || c = '\n' || c = '\r' || c = '\x0b' || c = '\x0c'

/-- Word character for the regex `\b` boundary (`[A-Za-z0-9_]`). -/
def isWordChar (c : Char) : Bool :=
  c.isAlphanum || c = '_'

/-- ASCII lower-casing of a character, modelling `str.lower()`. -/
def toLowerChar (c : Char) : Char :=
  if 'A' ≤ c ∧ c ≤ 'Z' then Char.ofNat (c.toNat + 32) else c

/-- `str.strip()` on a character list. -/
def pyStrip (l : List Char) : List Char :=
  ((l.dropWhile isSpaceChar).reverse.dropWhile isSpaceChar).reverse

/-- The classifier computation `message.lower().strip()`. -/
def msgLower (m : String) : List Char :=
  pyStrip (m.data.map toLowerChar)

/-- Is `needle` a prefix of `hay`? -/
def isPrefixL : List Char → List Char → Bool
  | [], _ => true
  | _ :: _, [] => false
  | a :: as, b :: bs => a == b && isPrefixL as bs

/-- Python substring containment (`needle in hay`). -/
def containsSub (needle : List Char) : List Char → Bool
  | [] => isPrefixL needle []
  | c :: t => isPrefixL needle (c :: t) || containsSub needle t

def containsStr (needle : String) (hay : List Char) : Bool :=
  containsSub needle.data hay

/-- Values stored in the Python string-keyed dictionaries
(`entities`, `parameters`, `context_updates`). -/
inductive Value where
  | s (v : String)
  | i (v : Int)
  | d (fields : List (String × Value))

/-- Dictionary lookup (`d.get(key)` / `d[key]`). -/
def dget : List (String × Value) → String → Option Value
  | [], _ => none
  | (k, v) :: rest, key => if k = key then some v else dget rest key

/-- Dictionary assignment `d[key] = v`: updates in place, appends if absent
(Python dicts preserve insertion order). -/
def dinsert : List (String × Value) → String → Value → List (String × Value)
  | [], k, v => [(k, v)]
  | (k0, v0) :: rest, k, v =>
      if k0 = k then (k0, v) :: rest else (k0, v0) :: dinsert rest k v

/-- `key in d`. -/
def dhas (d : List (String × Value)) (k : String) : Bool :=
  (dget d k).isSome

/-- Lookup expecting a string value. -/
def getStrOpt (d : List (String × Value)) (k : String) : Option String :=
  match dget d k with
  | some (.s v) => some v
  | _ => none

/-- The session context mapping as read by the planner
(keys `area`, `specific_location`, `last_outlet_mentioned`;
`none` models an absent key / a `None` value, which are
indistinguishable through `session_context.get`). -/
structure Ctx where
  area : Option String := none
  specific_location : Option String := none
  last_outlet_mentioned : Option String := none

/-- Python truthiness of `session_context.get(key)`:
`None` and the empty string are falsy. -/
def truthy : Option String → Bool
  | none => false
  | some s => s != ""

def emptyCtx : Ctx := {}

/-! ### A small pattern language modelling the `re` patterns used by the classifier.

All patterns appearing in `planner.py` are built from literals, single-char
classes, alternation, optional parts, char-class stars (`\s*`, `.*`, `\d+`)
and the zero-width word boundary `\b`; this AST covers exactly those. -/

inductive Pat where
  | lit (s : String)
  | cls (p : Char → Bool)
  | seq (a b : Pat)
  | alt (a b : Pat)
  | starC (p : Char → Bool)
  | opt (a : Pat)
  | wb

/-- Last character of `consumed`, falling back to the character preceding
the current match position. -/
def lastOr (consumed : List Char) (prev : Option Char) : Option Char :=
  match consumed.getLast? with
  | some c => some c
  | none => prev

def wordB : Option Char → Bool
  | none => false
  | some c => isWordChar c

def headWord : List Char → Bool
  | c :: _ => isWordChar c
  | [] => false

/-- All ways a char-class star can match here, longest first (greedy,
as in Python `re`).  Each result is (consumed, new previous char, rest). -/
def starSplits (p : Char → Bool) (prev : Option Char) (rest : List Char) :
    List (List Char × Option Char × List Char) :=
  let n := (rest.takeWhile p).length
  ((List.range (n + 1)).reverse).map fun k =>
    let c := rest.take k
    (c, lastOr c prev, rest.drop k)

/-- Backtracking matcher: all matches of `pat` starting at the current
position, in the priority order Python `re` would try them.
`prev` is the character just before the position (for `\b`). -/
def matchAt : Pat → Option Char → List Char → List (List Char × Option Char × List Char)
  | .lit s, prev, rest =>
      if isPrefixL s.data rest then
        [(s.data, lastOr s.data prev, rest.drop s.data.length)]
      else []
  | .cls p, _, rest =>
      match rest with
      | c :: t => if p c then [([c], some c, t)] else []
      | [] => []
  | .seq a b, prev, rest =>
      (matchAt a prev rest).flatMap fun x =>
        (matchAt b x.2.1 x.2.2).map fun y => (x.1 ++ y.1, y.2.1, y.2.2)
  | .alt a b, prev, rest => matchAt a prev rest ++ matchAt b prev rest
  | .starC p, prev, rest => starSplits p prev rest
  | .opt a, prev, rest => matchAt a prev rest ++ [([], prev, rest)]
  | .wb, prev, rest =>
      if wordB prev != headWord rest then [([], prev, rest)] else []

/-- Leftmost search (`re.search`): first position, in reading order, where
`pat` matches; returns the matched text (`.group()`). -/
def searchFrom (pat : Pat) (prev : Option Char) (rest : List Char) : Option (List Char) :=
  match rest, matchAt pat prev rest with
  | _, r :: _ => some r.1
  | [], [] => none
  | c :: t, [] => searchFrom pat (some c) t

def reSearch (pat : Pat) (s : List Char) : Option (List Char) :=
  searchFrom pat none s

def reTest (pat : Pat) (s : List Char) : Bool :=
  (reSearch pat s).isSome

/-- Existence of a match for a pipe-joined pattern list. -/
def anyTest (pats : List Pat) (s : List Char) : Bool :=
  pats.any fun p => reTest p s

/-- First pattern in the list with a search hit, returning its matched text
(the classifier loop over `location_patterns` / `malaysia_cities`). -/
def firstSearch : List Pat → List Char → Option (List Char)
  | [], _ => none
  | p :: rest, s =>
    match reSearch p s with
    | some t => some t
    | none => firstSearch rest s

def altList : List Pat → Pat
  | [] => .lit ""
  | [p] => p
  | p :: q :: rest => .alt p (altList (q :: rest))

/-- `\b(?:w1|w2|...)\b` over literal words. -/
def wlits (ws : List String) : Pat :=
  .seq .wb (.seq (altList (ws.map .lit)) .wb)

/-- `\b p \b`. -/
def wpat (p : Pat) : Pat :=
  .seq .wb (.seq p .wb)

/-- Regex `.` (anything but a newline). -/
def dotC (c : Char) : Bool := c != '\n'

/-- `\s*`. -/
def spacesStar : Pat := .starC isSpaceChar

/-- `\d+`. -/
def digitsP : Pat := .seq (.cls Char.isDigit) (.starC Char.isDigit)

/-- The apostrophe character (escaped in the Python patterns). -/
def apos : Char := Char.ofNat 39

def aposOpt : Pat := .opt (.cls fun c => c = apos)

/-- `[\s-]` (forecast-duration separator). -/
def sepChar (c : Char) : Bool := isSpaceChar c || c = '-'

/-! ### The classifier pattern sets (IntentClassifier.__init__) -/

def location_patterns : List Pat :=
  [ wlits ["petaling jaya", "pj"],
    wlits ["kuala lumpur", "kl"],
    wpat (.alt (.seq (.lit "ss") (.seq spacesStar (.lit "2"))) (.lit "ss2")),
    wpat (.alt (.seq (.lit "ss") (.seq spacesStar (.lit "15"))) (.lit "ss15")),
    wlits ["damansara utama"],
    wlits ["klcc"],
    wlits ["bukit bintang"] ]

def malaysia_cities : List Pat :=
  [ wlits ["kuala lumpur", "kl", "johor", "penang", "selangor", "sabah", "sarawak"],
    wlits ["ipoh", "malacca", "melaka", "kuching", "kota kinabalu", "shah alam"],
    wlits ["petaling jaya", "pj", "subang jaya", "klang", "ampang"] ]

/-- `\d+\s*[\+\-\*\/]\s*\d+`. -/
def opChar (c : Char) : Bool :=
  c = '+' || c = '-' || c = '*' || c = '/'

def mathExprPat : Pat :=
  .seq digitsP (.seq spacesStar (.seq (.cls opChar) (.seq spacesStar digitsP)))

/-- The keyword alternatives of the calculation pattern carry no `\b`,
so they are plain substring tests. -/
def calc_keywords : List String :=
  ["calculate", "compute", "math", "plus", "minus", "times", "divided", "sum", "total"]

def calculationMatch (s : List Char) : Bool :=
  reTest mathExprPat s || calc_keywords.any fun w => containsStr w s

def weather_current_patterns : List Pat :=
  [ wpat (altList [.lit "weather", .lit "temperature", .lit "temp", .lit "climate",
      .seq (.lit "condition") (.opt (.lit "s"))]),
    wlits ["hot", "cold", "warm", "cool", "humid", "dry"],
    .seq (wlits ["current", "now", "today", "right now"])
      (.seq (.starC dotC) (wlits ["weather", "temperature"])),
    wpat (altList
      [ .seq (.lit "what") (.seq aposOpt (.lit "s the weather")),
        .seq (.lit "how") (.seq aposOpt (.lit "s the weather")),
        .lit "weather like" ]) ]

def weather_forecast_patterns : List Pat :=
  [ .seq (wpat (altList [.lit "forecast", .lit "tomorrow", .lit "next", .lit "week",
        .seq (.lit "day") (.opt (.lit "s")), .lit "future"]))
      (.seq (.starC dotC) (wlits ["weather", "rain", "storm"])),
    wlits ["will it rain", "going to rain", "rain today", "rain tomorrow"],
    wlits ["weather for", "forecast for"],
    .seq .wb (.seq (altList
        [ .seq (.lit "3") (.seq (.opt (.cls sepChar)) (.lit "day")),
          .lit "weekly", .lit "weekend" ])
      (.seq (.lit " ") (.seq (altList [.lit "weather", .lit "forecast"]) .wb))) ]

def greeting_pattern : Pat :=
  wlits ["hi", "hello", "hey", "good morning", "good afternoon", "good evening"]

def goodbye_pattern : Pat :=
  wlits ["bye", "goodbye", "thank you", "thanks", "see you"]

def product_patterns : List Pat :=
  [ wlits ["product", "products", "drinkware", "mug", "mugs", "cup", "cups",
      "tumbler", "tumblers", "bottle", "bottles"],
    wlits ["travel mug", "coffee mug", "espresso cup", "french press", "cold brew",
      "thermal", "carafe"],
    wlits ["ceramic", "stainless steel", "bamboo", "glass", "eco-friendly"],
    wlits ["buy", "purchase", "shop", "store", "merchandise", "buy online"] ]

def advanced_outlet_patterns : List Pat :=
  [ .seq (wlits ["find", "search", "locate", "discover"])
      (.seq (.starC dotC) (wlits ["outlet", "store", "branch", "location"])),
    wpat (altList
      [ .seq (.lit "drive") (.seq (.opt (.cls dotC)) (.lit "thru")),
        .seq (.lit "drive") (.seq (.opt (.cls dotC)) (.lit "through")) ]),
    wpat (altList
      [ .seq (.lit "24") (.seq (.opt (.cls dotC)) (.lit "hour")),
        .seq (.lit "24") (.seq (.opt (.cls dotC)) (.lit "hours")),
        .lit "overnight", .lit "late night" ]),
    wpat (altList
      [ .lit "parking", .lit "wifi", .lit "meeting",
        .seq (.lit "family") (.seq (.opt (.cls dotC)) (.lit "friendly")),
        .seq (.lit "student") (.seq (.opt (.cls dotC)) (.lit "friendly")) ]),
    wlits ["near", "nearby", "close to", "around"] ]

/-- Plain-substring keyword checks (`outlet in message_lower or ...`). -/
def outletKeyword (s : List Char) : Bool :=
  containsStr "outlet" s || containsStr "store" s || containsStr "shop" s ||
    containsStr "mall" s

def hoursKeyword (s : List Char) : Bool :=
  ["hour", "time", "open", "close", "when"].any fun w => containsStr w s

def locationKeyword (s : List Char) : Bool :=
  ["address", "where", "located"].any fun w => containsStr w s

def phoneKeyword (s : List Char) : Bool :=
  ["phone", "number", "contact", "call"].any fun w => containsStr w s

/-! ### Entity extraction helpers -/

def digitsToNat (l : List Char) : Nat :=
  l.foldl (fun acc c => acc * 10 + (c.toNat - 48)) 0

/-- Match `(\d+)\s*([\+\-\*\/])\s*(\d+)` at the current position, returning
the three groups. -/
def mathAt (l : List Char) : Option (Int × String × Int) :=
  let d1 := l.takeWhile Char.isDigit
  if d1 = [] then none
  else
    match (l.drop d1.length).dropWhile isSpaceChar with
    | c :: r3 =>
      if opChar c then
        let d2 := (r3.dropWhile isSpaceChar).takeWhile Char.isDigit
        if d2 = [] then none
        else some ((digitsToNat d1 : Int), String.mk [c], (digitsToNat d2 : Int))
      else none
    | [] => none

/-- Leftmost occurrence of the arithmetic-expression pattern
(run on the raw message, as in the source). -/
def extractMath : List Char → Option (Int × String × Int)
  | [] => none
  | c :: t =>
    match mathAt (c :: t) with
    | some r => some r
    | none => extractMath t

/-- Match `(\d+)[\s-]?day` at the current position (separator consumed
greedily, as Python would). -/
def forecastAt (l : List Char) : Option Nat :=
  let d1 := l.takeWhile Char.isDigit
  if d1 = [] then none
  else
    match l.drop d1.length with
    | c :: r2 =>
      if sepChar c && isPrefixL "day".data r2 then some (digitsToNat d1)
      else if isPrefixL "day".data (c :: r2) then some (digitsToNat d1)
      else none
    | [] => none

def extractForecastDays : List Char → Option Nat
  | [] => none
  | c :: t =>
    match forecastAt (c :: t) with
    | some n => some n
    | none => extractForecastDays t

/-! ### Data model (planner.py) -/

inductive IntentType where
  | greeting | outlet_search | hours_inquiry | location_inquiry | phone_inquiry
  | calculation | weather_current | weather_forecast | weather_location
  | product_search | outlet_search_nl | general_question | goodbye | unclear
deriving DecidableEq

/-- The `.value` string of the Python enum member. -/
def IntentType.label : IntentType → String
  | .greeting => "greeting"
  | .outlet_search => "outlet_search"
  | .hours_inquiry => "hours_inquiry"
  | .location_inquiry => "location_inquiry"
  | .phone_inquiry => "phone_inquiry"
  | .calculation => "calculation"
  | .weather_current => "weather_current"
  | .weather_forecast => "weather_forecast"
  | .weather_location => "weather_location"
  | .product_search => "product_search"
  | .outlet_search_nl => "outlet_search_nl"
  | .general_question => "general_question"
  | .goodbye => "goodbye"
  | .unclear => "unclear"

inductive ActionType where
  | ask_clarification | search_outlets | calculate | get_weather | get_forecast
  | search_weather_location | search_products | search_outlets_nl | provide_info
  | rag_search | finish
deriving DecidableEq

def ActionType.label : ActionType → String
  | .ask_clarification => "ask_clarification"
  | .search_outlets => "search_outlets"
  | .calculate => "calculate"
  | .get_weather => "get_weather"
  | .get_forecast => "get_forecast"
  | .search_weather_location => "search_weather_location"
  | .search_products => "search_products"
  | .search_outlets_nl => "search_outlets_nl"
  | .provide_info => "provide_info"
  | .rag_search => "rag_search"
  | .finish => "finish"

structure ParsedIntent where
  intent : IntentType
  entities : List (String × Value)
  missing_info : List String
  confidence : ℚ

structure PlannedAction where
  action_type : ActionType
  parameters : List (String × Value)
  reasoning : String
  required_tools : List String

def vague_weather_terms : List (List Char) :=
  ["weather".data, "temperature".data, "temp".data, "climate".data]

def vague_outlet_terms : List (List Char) :=
  ["outlet".data, "outlets".data, "store".data, "stores".data, "shop".data,
   "shops".data, "show outlets".data, "find outlets".data]

def vague_calc_terms : List (List Char) :=
  ["calculate".data, "computation".data, "math".data]

/-- Entity extraction (the location / weather-location /
forecast-days passes, which run before intent branching). -/
def entitiesOf (message : String) : List (String × Value) :=
  let ml := msgLower message
  let e1 :=
    match firstSearch location_patterns ml with
    | some t => dinsert [] "location" (.s (String.mk t))
    | none => []
  let e2 :=
    match firstSearch malaysia_cities ml with
    | some t => dinsert e1 "weather_location" (.s (String.mk t))
    | none => e1
  match extractForecastDays ml with
  | some n => dinsert e2 "forecast_days" (.i n)
  | none => e2

/-- `IntentClassifier.classify_intent`. -/
def classify_intent (message : String) (session_context : Ctx) : ParsedIntent :=
  let ml := msgLower message
  if ml = [] then ⟨.unclear, [], ["message"], 0⟩
  else
    let e3 := entitiesOf message
    if reTest greeting_pattern ml then ⟨.greeting, e3, [], 9/10⟩
    else if reTest goodbye_pattern ml then ⟨.goodbye, e3, [], 9/10⟩
    else if calculationMatch ml then
      match extractMath message.data with
      | some (a, op, b) =>
        ⟨.calculation,
          dinsert (dinsert (dinsert e3 "operand1" (.i a)) "operator" (.s op))
            "operand2" (.i b), [], 8/10⟩
      | none => ⟨.calculation, e3, ["calculation_expression"], 6/10⟩
    else if anyTest weather_forecast_patterns ml then
      let e4 := if dhas e3 "forecast_days" then e3 else dinsert e3 "forecast_days" (.i 3)
      ⟨.weather_forecast, e4, [], 8/10⟩
    else if anyTest weather_current_patterns ml then
      if !dhas e3 "weather_location" && decide (ml ∈ vague_weather_terms) then
        ⟨.weather_current, e3, ["location"], 6/10⟩
      else ⟨.weather_current, e3, [], 8/10⟩
    else if anyTest product_patterns ml then
      ⟨.product_search, dinsert e3 "product_query" (.s (String.mk ml)), [], 8/10⟩
    else if anyTest advanced_outlet_patterns ml then
      ⟨.outlet_search_nl, dinsert e3 "outlet_query" (.s (String.mk ml)), [], 8/10⟩
    else if outletKeyword ml then
      if !dhas e3 "location" then
        if decide (ml ∈ vague_outlet_terms) then ⟨.outlet_search, e3, ["location"], 6/10⟩
        else ⟨.outlet_search, e3, ["location"], 8/10⟩
      else ⟨.outlet_search, e3, [], 8/10⟩
    else if hoursKeyword ml then
      if !dhas e3 "location" && !truthy session_context.area then
        ⟨.hours_inquiry, e3, ["location"], 8/10⟩
      else ⟨.hours_inquiry, e3, [], 8/10⟩
    else if locationKeyword ml then
      if !dhas e3 "location" && !truthy session_context.area then
        ⟨.location_inquiry, e3, ["location"], 8/10⟩
      else ⟨.location_inquiry, e3, [], 8/10⟩
    else if phoneKeyword ml then
      if !dhas e3 "location" && !truthy session_context.area then
        ⟨.phone_inquiry, e3, ["location"], 8/10⟩
      else ⟨.phone_inquiry, e3, [], 8/10⟩
    else if decide (ml ∈ vague_calc_terms) then
      ⟨.calculation, e3, ["calculation_expression"], 5/10⟩
    else ⟨.unclear, e3, ["clarification"], 3/10⟩

/-! ### Action planner (ActionPlanner.plan_action) -/

def calcClarificationQ : String :=
  "I\x27d be happy to help with calculations! Could you please provide a clear math expression? For example: \x275 + 3\x27 or \x2710 * 2\x27"

def fallbackQ : String :=
  "How can I help you today? I can provide information about our outlet locations, hours, contact details, current weather conditions, and weather forecasts for Malaysia."

/-- `ActionPlanner.plan_action`. -/
def plan_action (intent : ParsedIntent) (session_context : Ctx) : PlannedAction :=
  match intent.intent with
  | .greeting =>
    ⟨.provide_info,
      [("message", .s "Hello! I\x27m here to help you find information about our outlets. How can I assist you today?")],
      "User greeted the bot, respond warmly and offer help", []⟩
  | .goodbye =>
    ⟨.finish,
      [("message", .s "Thank you for using our outlet assistant! Have a great day!")],
      "User is ending conversation, provide polite farewell", []⟩
  | .calculation =>
    if intent.missing_info ≠ [] then
      ⟨.ask_clarification, [("question", .s calcClarificationQ)],
        "Missing calculation expression, need clarification", []⟩
    else
      ⟨.calculate, intent.entities,
        "User wants calculation and all parameters are available", ["calculator"]⟩
  | .weather_current =>
    if "location" ∈ intent.missing_info then
      ⟨.ask_clarification,
        [("question", .s "Which city would you like the weather for? I can provide weather for any Malaysian city. If you don\x27t specify, I\x27ll show weather for Kuala Lumpur.")],
        "Very vague weather request, asking for clarification", []⟩
    else
      ⟨.get_weather,
        [("location", .s ((getStrOpt intent.entities "weather_location").getD "Kuala Lumpur, Malaysia"))],
        "User wants current weather information", ["weather_api"]⟩
  | .weather_forecast =>
    if "location" ∈ intent.missing_info then
      ⟨.ask_clarification,
        [("question", .s "Which city would you like the weather forecast for? I can provide forecasts for any Malaysian city.")],
        "Missing location for weather forecast", []⟩
    else
      ⟨.get_forecast,
        [("location", .s ((getStrOpt intent.entities "weather_location").getD "Kuala Lumpur, Malaysia")),
         ("days", match dget intent.entities "forecast_days" with
                  | some (.i n) => .i n
                  | _ => .i 3)],
        "User wants weather forecast information", ["weather_api"]⟩
  | .product_search =>
    ⟨.search_products,
      [("query", .s ((getStrOpt intent.entities "product_query").getD ""))],
      "User wants to search for ZUS Coffee drinkware products", ["product_kb"]⟩
  | .outlet_search_nl =>
    ⟨.search_outlets_nl,
      [("query", .s ((getStrOpt intent.entities "outlet_query").getD ""))],
      "User wants to search outlets using natural language query", ["outlets_db"]⟩
  | .outlet_search =>
    if "location" ∈ intent.missing_info ∧ ¬truthy session_context.area then
      ⟨.ask_clarification,
        [("question", .s "Which area are you interested in? We have outlets in Petaling Jaya (SS 2, SS 15, Damansara Utama) and Kuala Lumpur (KLCC, Bukit Bintang).")],
        "Missing location information for outlet search", []⟩
    else
      let search_params :=
        match dget intent.entities "location" with
        | some v => [("location", v)]
        | none =>
          if truthy session_context.area then
            [("area", Value.s (session_context.area.getD ""))]
          else []
      ⟨.search_outlets, search_params,
        "User wants outlet information and location is available", ["outlet_search"]⟩
  | .hours_inquiry =>
    if "location" ∈ intent.missing_info ∧ ¬truthy session_context.area ∧
        ¬truthy session_context.last_outlet_mentioned then
      ⟨.ask_clarification,
        [("question", .s "Which outlet would you like the opening hours for? Please specify the location.")],
        "Missing location information for hours inquiry", []⟩
    else
      let search_params :=
        match dget intent.entities "location" with
        | some v => [("location", v)]
        | none =>
          if truthy session_context.last_outlet_mentioned then
            [("location", Value.s (session_context.last_outlet_mentioned.getD ""))]
          else if truthy session_context.specific_location then
            [("location", Value.s (session_context.specific_location.getD ""))]
          else if truthy session_context.area then
            [("area", Value.s (session_context.area.getD ""))]
          else []
      ⟨.provide_info,
        [("tool_call", .s "get_hours_info"), ("tool_params", .d search_params)],
        "User wants hours information and location is available from context",
        ["outlet_search"]⟩
  | .unclear =>
    ⟨.ask_clarification,
      [("question", .s "I\x27m not sure I understand. Are you looking for outlet locations, opening hours, contact information, or something else? I can also help with simple calculations!")],
      "User intent is unclear, need clarification", []⟩
  | _ =>
    ⟨.ask_clarification, [("question", .s fallbackQ)],
      "Fallback action for unhandled intents", []⟩

/-! ### Tool executor (ToolExecutor) -/

def lowerStr (s : String) : String :=
  String.mk (s.data.map toLowerChar)

/-- Digits after the decimal point of `num/den` (`num < den`), at most
`fuel` of them, dropping a trailing all-zero tail. -/
def fracDigits (num den : Nat) : Nat → List Char
  | 0 => []
  | k + 1 =>
    if num = 0 then []
    else Char.ofNat (48 + num * 10 / den) :: fracDigits (num * 10 % den) den k

/-- Decimal rendering of the true quotient `a / b`, modelling the Python
`repr` of the float result.  Exact for quotients with a short finite decimal
expansion (the only ones the repository exercises); for other quotients it
truncates to 16 fractional digits.  No claim below evaluates this function. -/
def floatDivRepr (a b : Int) : String :=
  let q : ℚ := (a : ℚ) / (b : ℚ)
  let n := q.num.natAbs
  let d := q.den
  let ds := fracDigits (n % d) d 16
  (if q < 0 then "-" else "") ++ toString (n / d) ++ "." ++
    (if ds = [] then "0" else String.mk ds)

/-- The rendered line `f"{operand1} {operator} {operand2} = {result}"`. -/
def calcLine (a : Int) (op : String) (b : Int) (res : String) : String :=
  toString a ++ " " ++ op ++ " " ++ toString b ++ " = " ++ res

/-- `ToolExecutor.execute_calculation`. -/
def execute_calculation (operand1 : Int) (operator : String) (operand2 : Int) : String :=
  if operator = "+" then calcLine operand1 operator operand2 (toString (operand1 + operand2))
  else if operator = "-" then calcLine operand1 operator operand2 (toString (operand1 - operand2))
  else if operator = "*" then calcLine operand1 operator operand2 (toString (operand1 * operand2))
  else if operator = "/" then
    if operand2 = 0 then "Error: Cannot divide by zero"
    else calcLine operand1 operator operand2 (floatDivRepr operand1 operand2)
  else "Error: Unsupported operator"

/-- One record of the outlet catalog (the fields used by the executor). -/
structure OutletRec where
  name : String
  location : String
  area : String
  opening_time : String
  closing_time : String

/-- `ToolExecutor.search_outlets`.  The executor holds `outlets_data` as a raw
JSON string and calls `json.loads` on it each time with no try/except: a
malformed catalog is the `.error` case and the exception propagates. -/
def search_outlets (outlets_data : Except String (List OutletRec))
    (location area : Option String) : Except String String := do
  let outlets ← outlets_data
  let filtered :=
    if truthy location then
      let l := (lowerStr (location.getD "")).data
      outlets.filter fun o =>
        containsSub l (lowerStr o.location).data || containsSub l (lowerStr o.area).data
    else if truthy area then
      let a := (lowerStr (area.getD "")).data
      outlets.filter fun o => containsSub a (lowerStr o.area).data
    else outlets
  if filtered.isEmpty then pure "No outlets found matching your criteria."
  else
    pure ("Found " ++ toString filtered.length ++ " outlet(s):\n" ++
      String.join (filtered.map fun o => "• " ++ o.name ++ " - " ++ o.location ++ "\n"))

/-- `ToolExecutor.get_hours_info` (same filter, renders opening hours;
prompts back when neither location nor area is supplied). -/
def get_hours_info (outlets_data : Except String (List OutletRec))
    (location area : Option String) : Except String String := do
  let outlets ← outlets_data
  if truthy location then
    let l := (lowerStr (location.getD "")).data
    let filtered := outlets.filter fun o =>
      containsSub l (lowerStr o.location).data || containsSub l (lowerStr o.area).data
    if filtered.isEmpty then pure "No outlets found matching your criteria."
    else pure ("Opening hours:\n" ++ String.join (filtered.map fun o =>
      "• " ++ o.name ++ ": " ++ o.opening_time ++ " - " ++ o.closing_time ++ "\n"))
  else if truthy area then
    let a := (lowerStr (area.getD "")).data
    let filtered := outlets.filter fun o => containsSub a (lowerStr o.area).data
    if filtered.isEmpty then pure "No outlets found matching your criteria."
    else pure ("Opening hours:\n" ++ String.join (filtered.map fun o =>
      "• " ++ o.name ++ ": " ++ o.opening_time ++ " - " ++ o.closing_time ++ "\n"))
  else pure "Please specify which outlet you\x27d like hours for."

/-! ### Orchestrator (AgenticPlanner.process_message and the main.py wrapper) -/

structure PlannerResult where
  intent : ParsedIntent
  action : PlannedAction
  context_updates : List (String × Value)

/-- The external collaborators reached through the async tool methods.
Each of those methods wraps its body in try/except and always returns a
renderable string, so they are modelled as total string-valued functions;
`llm` is `ConversationAgent.process_message` (the OpenAI path), which
likewise catches every exception and returns a string. -/
structure Ext where
  weatherMsg : Option String → String
  forecastMsg : Int → Option String → String
  productsMsg : String → String
  outletsNlMsg : String → String
  llm : String → String

/-- `action.parameters[key]` where the code requires an int
(`KeyError` / unexpected type propagate as exceptions). -/
def getIntE (d : List (String × Value)) (k : String) : Except String Int :=
  match dget d k with
  | some (.i n) => .ok n
  | some _ => .error ("TypeError: " ++ k)
  | none => .error ("KeyError: " ++ k)

def getStrE (d : List (String × Value)) (k : String) : Except String String :=
  match dget d k with
  | some (.s v) => .ok v
  | some _ => .error ("TypeError: " ++ k)
  | none => .error ("KeyError: " ++ k)

def getDictE (d : List (String × Value)) (k : String) :
    Except String (List (String × Value)) :=
  match dget d k with
  | some (.d f) => .ok f
  | some _ => .error ("TypeError: " ++ k)
  | none => .error ("KeyError: " ++ k)

/-- Attach the rendered tool result under the `message` parameter key. -/
def withMsg (a : PlannedAction) (m : String) : PlannedAction :=
  { a with parameters := dinsert a.parameters "message" (.s m) }

/-- Step 4 of `AgenticPlanner.process_message`: context deltas derived from a
`location` entity. -/
def context_updates_of (intent : ParsedIntent) : List (String × Value) :=
  match getStrOpt intent.entities "location" with
  | none => []
  | some loc =>
    let l := (lowerStr loc).data
    let u1 := [("last_outlet_mentioned", Value.s loc)]
    if ["petaling jaya", "pj", "ss 2", "ss2", "ss 15", "ss15", "damansara"].any
        (fun w => containsStr w l) then
      let u2 := u1 ++ [("area", Value.s "petaling_jaya")]
      if containsStr "ss 2" l || containsStr "ss2" l then
        u2 ++ [("specific_location", Value.s "ss 2")]
      else if containsStr "ss 15" l || containsStr "ss15" l then
        u2 ++ [("specific_location", Value.s "ss 15")]
      else if containsStr "damansara" l then
        u2 ++ [("specific_location", Value.s "damansara utama")]
      else u2
    else if ["kuala lumpur", "kl", "klcc", "bukit bintang"].any
        (fun w => containsStr w l) then
      let u2 := u1 ++ [("area", Value.s "kuala_lumpur")]
      if containsStr "klcc" l then u2 ++ [("specific_location", Value.s "klcc")]
      else if containsStr "bukit bintang" l then
        u2 ++ [("specific_location", Value.s "bukit bintang")]
      else u2
    else u1

/-- `AgenticPlanner.process_message`: classify → plan → execute-if-needed →
context deltas.  The body has no try/except, so a tool exception (modelled by
`.error`) propagates to the caller. -/
def process_message (outlets_data : Except String (List OutletRec)) (ext : Ext)
    (message : String) (session_context : Ctx) : Except String PlannerResult := do
  let intent := classify_intent message session_context
  let action := plan_action intent session_context
  let action ←
    match action.action_type with
    | .calculate => do
      let a ← getIntE action.parameters "operand1"
      let op ← getStrE action.parameters "operator"
      let b ← getIntE action.parameters "operand2"
      pure (withMsg action (execute_calculation a op b))
    | .search_outlets => do
      let r ← search_outlets outlets_data (getStrOpt action.parameters "location")
        (getStrOpt action.parameters "area")
      pure (withMsg action r)
    | .get_weather =>
      pure (withMsg action (ext.weatherMsg (getStrOpt action.parameters "location")))
    | .get_forecast =>
      pure (withMsg action (ext.forecastMsg
        (match dget action.parameters "days" with | some (.i n) => n | _ => 3)
        (getStrOpt action.parameters "location")))
    | .search_products =>
      pure (withMsg action (ext.productsMsg ((getStrOpt action.parameters "query").getD "")))
    | .search_outlets_nl =>
      pure (withMsg action (ext.outletsNlMsg ((getStrOpt action.parameters "query").getD "")))
    | _ =>
      if getStrOpt action.parameters "tool_call" = some "get_hours_info" then do
        let tp ← getDictE action.parameters "tool_params"
        let r ← get_hours_info outlets_data (getStrOpt tp "location") (getStrOpt tp "area")
        pure (withMsg action r)
      else pure action
  pure ⟨intent, action, context_updates_of intent⟩

/-- Response-text extraction of `process_message_with_planner_detailed`
(runs inside the same try block; a missing parameter key would also be
caught there).  Unhandled action types fall back to the LLM path. -/
def response_text_of (ext : Ext) (message : String) (a : PlannedAction) :
    Except String String :=
  match a.action_type with
  | .ask_clarification => getStrE a.parameters "question"
  | .provide_info => getStrE a.parameters "message"
  | .search_outlets => getStrE a.parameters "message"
  | .calculate => getStrE a.parameters "message"
  | .finish => getStrE a.parameters "message"
  | .get_weather => getStrE a.parameters "message"
  | .get_forecast => getStrE a.parameters "message"
  | _ => pure (ext.llm message)

/-- `ConversationAgent.process_message_with_planner_detailed` (main.py):
the whole planner pipeline runs inside one try block; any exception is
converted to the low-confidence `general_question`/`provide_info` fallback
tuple `(response, intent, action_type, reasoning, confidence, tools_used)`.
By construction the function is total: no exception escapes it. -/
def process_message_with_planner_detailed (outlets_data : Except String (List OutletRec))
    (ext : Ext) (message : String) (session_context : Ctx) :
    String × String × String × String × ℚ × List String :=
  match (do
    let pr ← process_message outlets_data ext message session_context
    let rt ← response_text_of ext message pr.action
    pure (rt, pr.intent.intent.label, pr.action.action_type.label,
      pr.action.reasoning, pr.intent.confidence, pr.action.required_tools) :
      Except String _) with
  | .ok t => t
  | .error _ =>
    (ext.llm message, "general_question", "provide_info",
      "Fallback due to planner error", 5/10, [])

/-! ### Session store (memory.py) -/

structure ConversationTurn where
  user_message : String
  bot_response : String
  timestamp : Nat
  turn_number : Nat

structure ConversationSession where
  session_id : String
  turns : List ConversationTurn
  context : List (String × String)
  created_at : Nat
  last_updated : Nat

/-- `ConversationMemoryManager`: dict of sessions plus the sliding-window
size (default 10, as in the global `memory_manager` instance). -/
structure MemoryManager where
  sessions : List (String × ConversationSession)
  window_size : Nat

def sget : List (String × ConversationSession) → String → Option ConversationSession
  | [], _ => none
  | (k, v) :: rest, key => if k = key then some v else sget rest key

def sinsert : List (String × ConversationSession) → String → ConversationSession →
    List (String × ConversationSession)
  | [], k, v => [(k, v)]
  | (k0, v0) :: rest, k, v =>
      if k0 = k then (k0, v) :: rest else (k0, v0) :: sinsert rest k v

def shas (m : List (String × ConversationSession)) (k : String) : Bool :=
  (sget m k).isSome

/-- `create_session`; the generated `uuid4` and the current time are passed
in explicitly (nondeterminism externalized). -/
def create_session (m : MemoryManager) (fresh : String) (now : Nat) :
    MemoryManager × String :=
  ({ m with sessions := sinsert m.sessions fresh ⟨fresh, [], [], now, now⟩ }, fresh)

/-- `get_or_create_session`: a truthy id already present is returned
unchanged, anything else triggers `create_session`. -/
def get_or_create_session (m : MemoryManager) (session_id : Option String)
    (fresh : String) (now : Nat) : MemoryManager × String :=
  if truthy session_id && shas m.sessions (session_id.getD "") then
    (m, session_id.getD "")
  else create_session m fresh now

/-- Python `l[-n:]` for `n > 0`. -/
def pyTakeLast (n : Nat) (l : List ConversationTurn) : List ConversationTurn :=
  l.drop (l.length - n)

/-- `add_turn`: appends a turn (to a freshly created session when the id is
unknown) and trims to the last `window_size` turns when the window is
exceeded. -/
def add_turn (m0 : MemoryManager) (session_id user_message bot_response : String)
    (fresh : String) (now : Nat) : MemoryManager :=
  let m := if shas m0.sessions session_id then m0 else (create_session m0 fresh now).1
  let sid := if shas m0.sessions session_id then session_id else fresh
  match sget m.sessions sid with
  | none => m
  | some session =>
    let turn : ConversationTurn :=
      ⟨user_message, bot_response, now, session.turns.length + 1⟩
    let turns := session.turns ++ [turn]
    let turns := if turns.length > m.window_size then pyTakeLast m.window_size turns else turns
    let updated := { session with turns := turns, last_updated := now }
    { m with sessions := sinsert m.sessions sid updated }

/-- Python dict assignment on the context bag (update in place, append if
absent). -/
def cinsert : List (String × String) → String → String → List (String × String)
  | [], k, v => [(k, v)]
  | (k0, v0) :: rest, k, v =>
      if k0 = k then (k0, v) :: rest else (k0, v0) :: cinsert rest k v

/-- `update_context`: sets a context key on an existing session. -/
def update_context (m : MemoryManager) (session_id key value : String) (now : Nat) :
    MemoryManager :=
  match sget m.sessions session_id with
  | none => m
  | some session =>
    let updated :=
      { session with context := cinsert session.context key value, last_updated := now }
    { m with sessions := sinsert m.sessions session_id updated }

/-- The store mutations of the claim (C8). -/
inductive MemOp where
  | addTurn (session_id user_message bot_response fresh : String) (now : Nat)
  | updCtx (session_id key value : String) (now : Nat)

def applyOp (m : MemoryManager) : MemOp → MemoryManager
  | .addTurn sid u b f now => add_turn m sid u b f now
  | .updCtx sid k v now => update_context m sid k v now

/-- The global `memory_manager = ConversationMemoryManager()` (window 10). -/
def initManager : MemoryManager := ⟨[], 10⟩

/-! ## Theorems -/

/-- C1: the spec (and the repository test `test_chat_flow.py`, turn 3)
requires `plan` to resolve a location inquiry from the remembered `area` and
emit an information-providing action.  The code disagrees: `plan_action` has
no `location_inquiry` branch at all, so the intent falls through to the
generic fallback and an `ask_clarification` action is returned.  This theorem
evaluates the code at the failing input. -/
theorem location_inquiry_falls_to_generic_clarification :
    classify_intent "what\x27s the address?" ⟨some "kuala_lumpur", none, none⟩ =
      ⟨.location_inquiry, [], [], 8/10⟩ ∧
    plan_action
        (classify_intent "what\x27s the address?" ⟨some "kuala_lumpur", none, none⟩)
        ⟨some "kuala_lumpur", none, none⟩ =
      ⟨.ask_clarification, [("question", .s fallbackQ)],
        "Fallback action for unhandled intents", []⟩ :=
  ⟨rfl, rfl⟩

/-- Lower-casing fixes whitespace characters. -/
lemma toLowerChar_space {c : Char} (h : isSpaceChar c = true) : toLowerChar c = c := by
  unfold isSpaceChar at h
  simp only [Bool.or_eq_true, decide_eq_true_eq] at h
  rcases h with ((((h | h) | h) | h) | h) | h <;> subst h <;> rfl

/-- A message made of whitespace only lowers and strips to the empty text. -/
lemma msgLower_eq_nil (m : String) (h : ∀ ch ∈ m.data, isSpaceChar ch = true) :
    msgLower m = [] := by
  unfold msgLower pyStrip
  have h2 : ∀ ch ∈ m.data.map toLowerChar, isSpaceChar ch = true := by
    intro ch hch
    rcases List.mem_map.mp hch with ⟨c0, hc0, rfl⟩
    rw [toLowerChar_space (h c0 hc0)]
    exact h c0 hc0
  rw [List.dropWhile_eq_nil_iff.mpr h2]
  rfl

/-- C9: for the empty string and every whitespace-only string, with any
session context, `classify_intent` returns the dedicated empty-input result:
intent `unclear`, confidence `0.0`, and the non-empty `missing_info`
`["message"]`. -/
theorem classify_blank_is_unclear (m : String) (c : Ctx)
    (h : ∀ ch ∈ m.data, isSpaceChar ch = true) :
    classify_intent m c = ⟨.unclear, [], ["message"], 0⟩ := by
  unfold classify_intent
  simp [msgLower_eq_nil m h]

/-- Witness for C9 at the whitespace-only message `"   "`. -/
theorem classify_blank_is_unclear_witness :
    classify_intent "   " emptyCtx = ⟨.unclear, [], ["message"], 0⟩ :=
  classify_blank_is_unclear "   " emptyCtx (by decide)

/-- C7: a calculation intent with missing information plans an
`ask_clarification` whose question carries the example expression `5 + 3`;
otherwise it plans a `calculate` action carrying the parsed operands with
tool `calculator`.  Concretely, `"5 + 3"` classifies to the three operand
entities and the executor renders `"5 + 3 = 8"`. -/
theorem calculation_pipeline :
    (∀ (i : ParsedIntent) (c : Ctx), i.intent = IntentType.calculation →
      (i.missing_info ≠ [] →
        plan_action i c =
          ⟨.ask_clarification, [("question", .s calcClarificationQ)],
            "Missing calculation expression, need clarification", []⟩) ∧
      (i.missing_info = [] →
        plan_action i c =
          ⟨.calculate, i.entities,
            "User wants calculation and all parameters are available", ["calculator"]⟩)) ∧
    containsStr "5 + 3" calcClarificationQ.data = true ∧
    classify_intent "5 + 3" emptyCtx =
      ⟨.calculation, [("operand1", .i 5), ("operator", .s "+"), ("operand2", .i 3)],
        [], 8/10⟩ ∧
    plan_action (classify_intent "5 + 3" emptyCtx) emptyCtx =
      ⟨.calculate, [("operand1", .i 5), ("operator", .s "+"), ("operand2", .i 3)],
        "User wants calculation and all parameters are available", ["calculator"]⟩ ∧
    execute_calculation 5 "+" 3 = "5 + 3 = 8" := by
  refine ⟨?_, by decide, rfl, rfl, rfl⟩
  rintro ⟨it, e, mi, cf⟩ c h
  obtain rfl : it = IntentType.calculation := h
  constructor
  · intro hne
    simp [plan_action, hne]
  · intro heq
    obtain rfl : mi = [] := heq
    simp [plan_action]

/-- Witness for the universally quantified part of C7, at the classified intent of
the message `"Calculate"` (missing expression) and of `"5 + 3"` (complete). -/
theorem calculation_pipeline_witness :
    plan_action (classify_intent "Calculate" emptyCtx) emptyCtx =
      ⟨.ask_clarification, [("question", .s calcClarificationQ)],
        "Missing calculation expression, need clarification", []⟩ ∧
    plan_action (classify_intent "5 + 3" emptyCtx) emptyCtx =
      ⟨.calculate, [("operand1", .i 5), ("operator", .s "+"), ("operand2", .i 3)],
        "User wants calculation and all parameters are available", ["calculator"]⟩ :=
  ⟨(calculation_pipeline.1 (classify_intent "Calculate" emptyCtx) emptyCtx rfl).1
      (by decide),
    calculation_pipeline.2.2.2.1⟩

/-- C6: for hours inquiries, `plan_action` asks for clarification exactly when
the location is unresolvable from message (`missing_info`), context `area` and
context `last_outlet_mentioned`; otherwise it emits a `provide_info` action
deferring a `get_hours_info` tool call whose location is resolved with
priority explicit entity > `last_outlet_mentioned` > `specific_location` >
`area`.  Concretely, the SS 2 opening-time message with empty context
extracts location `"ss 2"` and defers `get_hours_info(location="ss 2")`. -/
theorem hours_inquiry_resolution :
    (∀ (i : ParsedIntent) (c : Ctx), i.intent = IntentType.hours_inquiry →
      (("location" ∈ i.missing_info ∧ ¬truthy c.area ∧
          ¬truthy c.last_outlet_mentioned) →
        plan_action i c =
          ⟨.ask_clarification,
            [("question", .s "Which outlet would you like the opening hours for? Please specify the location.")],
            "Missing location information for hours inquiry", []⟩) ∧
      (¬("location" ∈ i.missing_info ∧ ¬truthy c.area ∧
          ¬truthy c.last_outlet_mentioned) →
        plan_action i c =
          ⟨.provide_info,
            [("tool_call", .s "get_hours_info"),
             ("tool_params", .d
               (match dget i.entities "location" with
                | some v => [("location", v)]
                | none =>
                  if truthy c.last_outlet_mentioned then
                    [("location", Value.s (c.last_outlet_mentioned.getD ""))]
                  else if truthy c.specific_location then
                    [("location", Value.s (c.specific_location.getD ""))]
                  else if truthy c.area then
                    [("area", Value.s (c.area.getD ""))]
                  else []))],
            "User wants hours information and location is available from context",
            ["outlet_search"]⟩)) ∧
    classify_intent "SS 2, what\x27s the opening time?" emptyCtx =
      ⟨.hours_inquiry, [("location", .s "ss 2")], [], 8/10⟩ ∧
    plan_action (classify_intent "SS 2, what\x27s the opening time?" emptyCtx) emptyCtx =
      ⟨.provide_info,
        [("tool_call", .s "get_hours_info"),
         ("tool_params", .d [("location", .s "ss 2")])],
        "User wants hours information and location is available from context",
        ["outlet_search"]⟩ := by
  refine ⟨?_, rfl, rfl⟩
  rintro ⟨it, e, mi, cf⟩ c h
  obtain rfl : it = IntentType.hours_inquiry := h
  constructor
  · intro hask
    unfold plan_action
    dsimp only
    rw [if_pos hask]
  · intro hnask
    unfold plan_action
    dsimp only
    rw [if_neg hnask]

/-- Witness for the universally quantified part of C6: with no entity and context
`last_outlet_mentioned = "ss 15"`, a bare hours question resolves to the last
mentioned outlet. -/
theorem hours_inquiry_resolution_witness :
    plan_action (classify_intent "when do you open?" ⟨none, none, some "ss 15"⟩)
        ⟨none, none, some "ss 15"⟩ =
      ⟨.provide_info,
        [("tool_call", .s "get_hours_info"),
         ("tool_params", .d [("location", .s "ss 15")])],
        "User wants hours information and location is available from context",
        ["outlet_search"]⟩ :=
  (hours_inquiry_resolution.1
      (classify_intent "when do you open?" ⟨none, none, some "ss 15"⟩)
      ⟨none, none, some "ss 15"⟩ rfl).2 (by decide)

/-- C5: `plan_action` is total and only ever returns one of the nine action
variants named by the spec (`search_weather_location` and `rag_search`, though
declared, are never produced). -/
theorem plan_action_nine_variants (i : ParsedIntent) (c : Ctx) :
    (plan_action i c).action_type ∈
      [ActionType.ask_clarification, ActionType.search_outlets, ActionType.calculate,
       ActionType.get_weather, ActionType.get_forecast, ActionType.search_products,
       ActionType.search_outlets_nl, ActionType.provide_info, ActionType.finish] := by
  rcases i with ⟨it, e, mi, cf⟩
  cases it
  all_goals unfold plan_action
  all_goals dsimp only
  all_goals repeat' split
  all_goals first | decide | simp

/-- C4: for every message and session context mapping, the classifier is
total (it is a function in this embedding, mirroring code that performs no
fallible operation) and its confidence lies in [0, 1]. -/
theorem classify_confidence_unit (m : String) (c : Ctx) :
    0 ≤ (classify_intent m c).confidence ∧ (classify_intent m c).confidence ≤ 1 := by
  unfold classify_intent
  dsimp only
  by_cases h1 : msgLower m = []
  · rw [if_pos h1]; norm_num
  rw [if_neg h1]
  by_cases h2 : reTest greeting_pattern (msgLower m) = true
  · rw [if_pos h2]; norm_num
  rw [if_neg h2]
  by_cases h3 : reTest goodbye_pattern (msgLower m) = true
  · rw [if_pos h3]; norm_num
  rw [if_neg h3]
  by_cases h4 : calculationMatch (msgLower m) = true
  · rw [if_pos h4]
    rcases hm : extractMath m.data with _ | ⟨a, op, b⟩ <;> dsimp only <;> norm_num
  rw [if_neg h4]
  by_cases h5 : anyTest weather_forecast_patterns (msgLower m) = true
  · rw [if_pos h5]; norm_num
  rw [if_neg h5]
  by_cases h6 : anyTest weather_current_patterns (msgLower m) = true
  · rw [if_pos h6]
    by_cases h6a : (!dhas (entitiesOf m) "weather_location" &&
        decide (msgLower m ∈ vague_weather_terms)) = true
    · rw [if_pos h6a]; norm_num
    · rw [if_neg h6a]; norm_num
  rw [if_neg h6]
  by_cases h7 : anyTest product_patterns (msgLower m) = true
  · rw [if_pos h7]; norm_num
  rw [if_neg h7]
  by_cases h8 : anyTest advanced_outlet_patterns (msgLower m) = true
  · rw [if_pos h8]; norm_num
  rw [if_neg h8]
  by_cases h9 : outletKeyword (msgLower m) = true
  · rw [if_pos h9]
    by_cases h9a : (!dhas (entitiesOf m) "location") = true
    · rw [if_pos h9a]
      by_cases h9b : decide (msgLower m ∈ vague_outlet_terms) = true
      · rw [if_pos h9b]; norm_num
      · rw [if_neg h9b]; norm_num
    · rw [if_neg h9a]; norm_num
  rw [if_neg h9]
  by_cases h10 : hoursKeyword (msgLower m) = true
  · rw [if_pos h10]
    by_cases h10a : (!dhas (entitiesOf m) "location" && !truthy c.area) = true
    · rw [if_pos h10a]; norm_num
    · rw [if_neg h10a]; norm_num
  rw [if_neg h10]
  by_cases h11 : locationKeyword (msgLower m) = true
  · rw [if_pos h11]
    by_cases h11a : (!dhas (entitiesOf m) "location" && !truthy c.area) = true
    · rw [if_pos h11a]; norm_num
    · rw [if_neg h11a]; norm_num
  rw [if_neg h11]
  by_cases h12 : phoneKeyword (msgLower m) = true
  · rw [if_pos h12]
    by_cases h12a : (!dhas (entitiesOf m) "location" && !truthy c.area) = true
    · rw [if_pos h12a]; norm_num
    · rw [if_neg h12a]; norm_num
  rw [if_neg h12]
  by_cases h13 : decide (msgLower m ∈ vague_calc_terms) = true
  · rw [if_pos h13]; norm_num
  · rw [if_neg h13]; norm_num

/-- Any classification that lands on `weather_current` comes from the single
weather-current branch of the cascade. -/
lemma classify_weather_current_eq (m : String) (c : Ctx)
    (h : (classify_intent m c).intent = IntentType.weather_current) :
    classify_intent m c =
      if (!dhas (entitiesOf m) "weather_location" &&
          decide (msgLower m ∈ vague_weather_terms)) = true
      then ⟨.weather_current, entitiesOf m, ["location"], 6/10⟩
      else ⟨.weather_current, entitiesOf m, [], 8/10⟩ := by
  unfold classify_intent at h ⊢
  dsimp only at h ⊢
  by_cases h1 : msgLower m = []
  · rw [if_pos h1] at h; simp at h
  rw [if_neg h1] at h ⊢
  by_cases h2 : reTest greeting_pattern (msgLower m) = true
  · rw [if_pos h2] at h; simp at h
  rw [if_neg h2] at h ⊢
  by_cases h3 : reTest goodbye_pattern (msgLower m) = true
  · rw [if_pos h3] at h; simp at h
  rw [if_neg h3] at h ⊢
  by_cases h4 : calculationMatch (msgLower m) = true
  · rw [if_pos h4] at h
    rcases hE : extractMath m.data with _ | ⟨a, op, b⟩ <;> rw [hE] at h <;> simp at h
  rw [if_neg h4] at h ⊢
  by_cases h5 : anyTest weather_forecast_patterns (msgLower m) = true
  · rw [if_pos h5] at h; simp at h
  rw [if_neg h5] at h ⊢
  by_cases h6 : anyTest weather_current_patterns (msgLower m) = true
  · rw [if_pos h6]
  rw [if_neg h6] at h ⊢
  by_cases h7 : anyTest product_patterns (msgLower m) = true
  · rw [if_pos h7] at h; simp at h
  rw [if_neg h7] at h ⊢
  by_cases h8 : anyTest advanced_outlet_patterns (msgLower m) = true
  · rw [if_pos h8] at h; simp at h
  rw [if_neg h8] at h ⊢
  by_cases h9 : outletKeyword (msgLower m) = true
  · rw [if_pos h9] at h
    by_cases h9a : (!dhas (entitiesOf m) "location") = true
    · rw [if_pos h9a] at h
      by_cases h9b : decide (msgLower m ∈ vague_outlet_terms) = true
      · rw [if_pos h9b] at h; simp at h
      · rw [if_neg h9b] at h; simp at h
    · rw [if_neg h9a] at h; simp at h
  rw [if_neg h9] at h ⊢
  by_cases h10 : hoursKeyword (msgLower m) = true
  · rw [if_pos h10] at h
    by_cases h10a : (!dhas (entitiesOf m) "location" && !truthy c.area) = true
    · rw [if_pos h10a] at h; simp at h
    · rw [if_neg h10a] at h; simp at h
  rw [if_neg h10] at h ⊢
  by_cases h11 : locationKeyword (msgLower m) = true
  · rw [if_pos h11] at h
    by_cases h11a : (!dhas (entitiesOf m) "location" && !truthy c.area) = true
    · rw [if_pos h11a] at h; simp at h
    · rw [if_neg h11a] at h; simp at h
  rw [if_neg h11] at h ⊢
  by_cases h12 : phoneKeyword (msgLower m) = true
  · rw [if_pos h12] at h
    by_cases h12a : (!dhas (entitiesOf m) "location" && !truthy c.area) = true
    · rw [if_pos h12a] at h; simp at h
    · rw [if_neg h12a] at h; simp at h
  rw [if_neg h12] at h ⊢
  by_cases h13 : decide (msgLower m ∈ vague_calc_terms) = true
  · rw [if_pos h13] at h; simp at h
  · rw [if_neg h13] at h; simp at h

/-- C3 (amended): for a weather-current classification with no gazetteer
weather-location match, `missing_info` contains `location` exactly when the
lowered, trimmed message is one of the maximally vague weather terms; a more
specific but unrecognized city keeps the unchanged category base confidence
0.8 (the code does not lower it) with no missing-location flag, and `plan`
then defaults the location to the fixed default city. -/
theorem weather_current_vague_policy (m : String) (c : Ctx)
    (h : (classify_intent m c).intent = IntentType.weather_current)
    (hg : dget (classify_intent m c).entities "weather_location" = none) :
    (("location" ∈ (classify_intent m c).missing_info) ↔
      msgLower m ∈ vague_weather_terms) ∧
    (msgLower m ∉ vague_weather_terms →
      (classify_intent m c).confidence = 8/10 ∧
      "location" ∉ (classify_intent m c).missing_info) ∧
    ("location" ∉ (classify_intent m c).missing_info →
      plan_action (classify_intent m c) c =
        ⟨.get_weather, [("location", .s "Kuala Lumpur, Malaysia")],
          "User wants current weather information", ["weather_api"]⟩) := by
  have heq := classify_weather_current_eq m c h
  have hent : (classify_intent m c).entities = entitiesOf m := by
    rw [heq]; split <;> rfl
  have hdget : dget (entitiesOf m) "weather_location" = none := by
    rw [← hent]; exact hg
  have hdhas : dhas (entitiesOf m) "weather_location" = false := by
    unfold dhas; rw [hdget]; rfl
  have hgs : getStrOpt (entitiesOf m) "weather_location" = none := by
    unfold getStrOpt; rw [hdget]
  rw [heq]
  simp only [hdhas, Bool.not_false, Bool.true_and]
  by_cases hv : msgLower m ∈ vague_weather_terms
  · rw [if_pos (decide_eq_true hv)]
    refine ⟨by simp [hv], fun hnv => absurd hv hnv, fun hmem => absurd (by simp) hmem⟩
  · rw [if_neg (by simpa using hv)]
    refine ⟨by simp [hv], fun _ => ⟨rfl, by simp⟩, fun _ => ?_⟩
    simp [plan_action, hgs]

/-- Witness for the amended C3 theorem at the unrecognized-city message
`"weather in tokyo"`: category base confidence 0.8 and no
missing-location flag. -/
theorem weather_current_vague_policy_witness :
    (classify_intent "weather in tokyo" emptyCtx).confidence = 8/10 ∧
    "location" ∉ (classify_intent "weather in tokyo" emptyCtx).missing_info :=
  (weather_current_vague_policy "weather in tokyo" emptyCtx rfl rfl).2.1 (by decide)

/-- Counterexample to C3 as stated: the claim requires an unrecognized-city
weather message to get a confidence strictly below the category base (0.8),
but `"weather in tokyo"` classifies as weather_current with no gazetteer
match, no missing-location flag, and confidence exactly 0.8. -/
theorem weather_unrecognized_city_keeps_base_confidence :
    (classify_intent "weather in tokyo" emptyCtx).intent =
      IntentType.weather_current ∧
    dget (classify_intent "weather in tokyo" emptyCtx).entities
      "weather_location" = none ∧
    msgLower "weather in tokyo" ∉ vague_weather_terms ∧
    "location" ∉ (classify_intent "weather in tokyo" emptyCtx).missing_info ∧
    (classify_intent "weather in tokyo" emptyCtx).confidence = 8/10 ∧
    ¬((classify_intent "weather in tokyo" emptyCtx).confidence < 8/10) := by
  refine ⟨rfl, rfl, by decide, by decide, rfl, ?_⟩
  intro hlt
  rw [show (classify_intent "weather in tokyo" emptyCtx).confidence = 8/10 from rfl]
    at hlt
  exact lt_irrefl _ hlt

/-- C2: any exception escaping the planner core (including tool-execution
failures, which `AgenticPlanner.process_message` does not catch) is caught at
the orchestrator boundary in main.py and converted into the low-confidence
(0.5) `general_question` / `provide_info` fallback tuple; the orchestrator
returns a plain tuple on every input, never an exception. -/
theorem orchestrator_converts_tool_errors
    (outlets_data : Except String (List OutletRec)) (ext : Ext) (m : String)
    (c : Ctx) (e : String)
    (h : process_message outlets_data ext m c = .error e) :
    process_message_with_planner_detailed outlets_data ext m c =
      (ext.llm m, "general_question", "provide_info",
        "Fallback due to planner error", 5/10, []) := by
  unfold process_message_with_planner_detailed
  rw [h]
  rfl

/-- A constant collaborator bundle used to witness C2. -/
def extConst : Ext :=
  ⟨fun _ => "", fun _ _ => "", fun _ => "", fun _ => "", fun _ => "llm fallback text"⟩

/-- Witness for C2: with a malformed outlet catalog (json.loads raises), the
outlet search raises inside `process_message`, and the detailed wrapper
converts it into the fallback tuple. -/
theorem orchestrator_converts_tool_errors_witness :
    process_message (.error "json decode error") extConst "outlet in pj" emptyCtx =
      .error "json decode error" ∧
    process_message_with_planner_detailed (.error "json decode error") extConst
        "outlet in pj" emptyCtx =
      ("llm fallback text", "general_question", "provide_info",
        "Fallback due to planner error", 5/10, []) :=
  ⟨rfl,
    orchestrator_converts_tool_errors (.error "json decode error") extConst
      "outlet in pj" emptyCtx "json decode error" rfl⟩

/-! ### Session-store lemmas (C8, C10) -/

lemma sget_sinsert (l : List (String × ConversationSession)) (k : String)
    (v : ConversationSession) (k2 : String) :
    sget (sinsert l k v) k2 = if k = k2 then some v else sget l k2 := by
  induction l with
  | nil =>
    by_cases h : k = k2 <;> simp [sinsert, sget, h]
  | cons hd tl ih =>
    obtain ⟨k0, v0⟩ := hd
    by_cases h0 : k0 = k
    · subst h0
      by_cases h2 : k0 = k2 <;> simp [sinsert, sget, h2]
    · by_cases h2 : k0 = k2
      · subst h2
        have : ¬k = k0 := fun hh => h0 hh.symm
        simp [sinsert, sget, h0, this]
      · simp [sinsert, sget, h0, h2, ih]

lemma shas_false_sget (l : List (String × ConversationSession)) (k : String)
    (h : shas l k = false) : sget l k = none := by
  unfold shas at h
  cases hs : sget l k with
  | none => rfl
  | some s => rw [hs] at h; simp at h

/-- C10: `get_or_create_session` with an id absent from the store does not
register that id: it creates a brand-new empty session under the freshly
generated UUID and returns that id (different from the passed one, the UUID
being fresh); only a truthy passed id already in the store is returned
unchanged, with the store untouched. -/
theorem get_or_create_session_spec :
    (∀ (m : MemoryManager) (sid fresh : String) (now : Nat),
      shas m.sessions sid = false → shas m.sessions fresh = false → fresh ≠ sid →
      get_or_create_session m (some sid) fresh now =
        ({ m with sessions :=
            sinsert m.sessions fresh ⟨fresh, [], [], now, now⟩ }, fresh) ∧
      sget ((get_or_create_session m (some sid) fresh now).1.sessions) sid = none ∧
      sget ((get_or_create_session m (some sid) fresh now).1.sessions) fresh =
        some ⟨fresh, [], [], now, now⟩) ∧
    (∀ (m : MemoryManager) (sid fresh : String) (now : Nat),
      sid ≠ "" → shas m.sessions sid = true →
      get_or_create_session m (some sid) fresh now = (m, sid)) := by
  constructor
  · intro m sid fresh now habs hfr hne
    have hcond : (truthy (some sid) && shas m.sessions sid) = false := by
      rw [habs]; simp
    have heq : get_or_create_session m (some sid) fresh now =
        ({ m with sessions :=
            sinsert m.sessions fresh ⟨fresh, [], [], now, now⟩ }, fresh) := by
      unfold get_or_create_session
      simp only [Option.getD_some]
      rw [hcond]
      rfl
    refine ⟨heq, ?_, ?_⟩
    · rw [heq]
      dsimp only
      rw [sget_sinsert, if_neg hne]
      exact shas_false_sget _ _ habs
    · rw [heq]
      dsimp only
      rw [sget_sinsert, if_pos rfl]
  · intro m sid fresh now hne hin
    have : truthy (some sid) = true := by
      unfold truthy
      simp [hne]
    unfold get_or_create_session
    simp only [Option.getD_some]
    rw [this, hin]
    rfl

/-- Witness for C10 on a concrete store: an unknown id triggers creation of a
fresh session under the new UUID; a known id is returned unchanged. -/
theorem get_or_create_session_spec_witness :
    get_or_create_session initManager (some "abc") "3f2e" 5 =
      ({ sessions := [("3f2e", ⟨"3f2e", [], [], 5, 5⟩)], window_size := 10 }, "3f2e") ∧
    get_or_create_session ⟨[("abc", ⟨"abc", [], [], 1, 1⟩)], 10⟩ (some "abc") "u9" 5 =
      (⟨[("abc", ⟨"abc", [], [], 1, 1⟩)], 10⟩, "abc") :=
  ⟨(get_or_create_session_spec.1 initManager "abc" "3f2e" 5 rfl rfl (by decide)).1,
    get_or_create_session_spec.2 ⟨[("abc", ⟨"abc", [], [], 1, 1⟩)], 10⟩ "abc" "u9" 5
      (by decide) rfl⟩

/-- The sliding-window store invariant: every stored session holds at most
`window_size` turns (and the window is the instantiated 10). -/
def StoreInv (m : MemoryManager) : Prop :=
  m.window_size = 10 ∧
    ∀ k s, sget m.sessions k = some s → s.turns.length ≤ m.window_size

lemma length_pyTakeLast (n : Nat) (l : List ConversationTurn) :
    (pyTakeLast n l).length ≤ n := by
  unfold pyTakeLast
  rw [List.length_drop]
  omega

lemma pyTakeLast_of_le (n : Nat) (l : List ConversationTurn) (h : l.length ≤ n) :
    pyTakeLast n l = l := by
  unfold pyTakeLast
  have h0 : l.length - n = 0 := by omega
  rw [h0, List.drop_zero]

/-- The appended-then-trimmed turn list of `add_turn` is bounded by the
window. -/
lemma trimmed_le (w : Nat) (l : List ConversationTurn) (t : ConversationTurn) :
    (if (l ++ [t]).length > w then pyTakeLast w (l ++ [t]) else l ++ [t]).length ≤ w := by
  by_cases hl : (l ++ [t]).length > w
  · rw [if_pos hl]; exact length_pyTakeLast w _
  · rw [if_neg hl]; omega

lemma add_turn_inv (m : MemoryManager) (sid u b f : String) (now : Nat)
    (hI : StoreInv m) : StoreInv (add_turn m sid u b f now) := by
  obtain ⟨hw, hb⟩ := hI
  unfold add_turn
  by_cases hs : shas m.sessions sid = true
  · rw [if_pos hs, if_pos hs]
    dsimp only
    cases hget : sget m.sessions sid with
    | none => exact ⟨hw, hb⟩
    | some session =>
      refine ⟨hw, ?_⟩
      intro k s hk
      dsimp only at hk
      rw [sget_sinsert] at hk
      by_cases hkk : sid = k
      · rw [if_pos hkk] at hk
        obtain rfl : _ = s := Option.some_injective _ hk
        exact trimmed_le _ _ _
      · rw [if_neg hkk] at hk
        exact hb k s hk
  · rw [if_neg hs, if_neg hs]
    dsimp only [create_session]
    rw [sget_sinsert, if_pos rfl]
    refine ⟨hw, ?_⟩
    intro k s hk
    dsimp only at hk
    rw [sget_sinsert] at hk
    by_cases hkk : f = k
    · rw [if_pos hkk] at hk
      obtain rfl : _ = s := Option.some_injective _ hk
      exact trimmed_le _ _ _
    · rw [if_neg hkk] at hk
      rw [sget_sinsert, if_neg hkk] at hk
      exact hb k s hk

lemma update_context_inv (m : MemoryManager) (sid k v : String) (now : Nat)
    (hI : StoreInv m) : StoreInv (update_context m sid k v now) := by
  obtain ⟨hw, hb⟩ := hI
  unfold update_context
  cases hget : sget m.sessions sid with
  | none => exact ⟨hw, hb⟩
  | some session =>
    refine ⟨hw, ?_⟩
    intro k2 s hk
    dsimp only at hk
    rw [sget_sinsert] at hk
    by_cases hkk : sid = k2
    · rw [if_pos hkk] at hk
      obtain rfl : _ = s := Option.some_injective _ hk
      exact hb sid session hget
    · rw [if_neg hkk] at hk
      exact hb k2 s hk

lemma applyOp_inv (m : MemoryManager) (op : MemOp) (hI : StoreInv m) :
    StoreInv (applyOp m op) := by
  cases op with
  | addTurn sid u b f now => exact add_turn_inv m sid u b f now hI
  | updCtx sid k v now => exact update_context_inv m sid k v now hI

lemma foldl_inv (ops : List MemOp) :
    ∀ m : MemoryManager, StoreInv m → StoreInv (ops.foldl applyOp m) := by
  induction ops with
  | nil => intro m hI; exact hI
  | cons op rest ih => intro m hI; exact ih (applyOp m op) (applyOp_inv m op hI)

/-- C8: starting from the initial store state (window W = 10), after any
sequence of `add_turn` / `update_context` mutations every session holds at
most 10 turns; moreover `add_turn` on a stored session leaves exactly the
most recent 10 of the appended turn list, silently dropping older turns. -/
theorem session_window_bound :
    (∀ (ops : List MemOp) (k : String) (s : ConversationSession),
      sget ((ops.foldl applyOp initManager).sessions) k = some s →
      s.turns.length ≤ 10) ∧
    (∀ (m : MemoryManager) (sid u b f : String) (now : Nat)
      (old : ConversationSession), m.window_size = 10 →
      sget m.sessions sid = some old →
      sget ((add_turn m sid u b f now).sessions) sid =
        some { old with
          turns := pyTakeLast 10
            (old.turns ++ [⟨u, b, now, old.turns.length + 1⟩]),
          last_updated := now }) := by
  constructor
  · intro ops k s hk
    have hI : StoreInv (ops.foldl applyOp initManager) :=
      foldl_inv ops initManager ⟨rfl, by intro k2 s2 h2; cases h2⟩
    obtain ⟨hw, hb⟩ := hI
    have := hb k s hk
    omega
  · intro m sid u b f now old hw hget
    have hs : shas m.sessions sid = true := by unfold shas; rw [hget]; rfl
    unfold add_turn
    rw [if_pos hs, if_pos hs]
    dsimp only
    rw [hget]
    dsimp only
    rw [sget_sinsert, if_pos rfl, hw]
    by_cases hl :
      (old.turns ++ [(⟨u, b, now, old.turns.length + 1⟩ : ConversationTurn)]).length > 10
    · rw [if_pos hl]
    · rw [if_neg hl]
      rw [pyTakeLast_of_le 10 _ (by omega)]

/-- Witness for C8: eleven successive turns on one session leave exactly ten
stored turns. -/
theorem session_window_bound_witness :
    ((sget ((List.replicate 11 (MemOp.addTurn "s" "u" "b" "s" 0)).foldl applyOp
        initManager).sessions "s").getD ⟨"", [], [], 0, 0⟩).turns.length ≤ 10 :=
  session_window_bound.1 (List.replicate 11 (MemOp.addTurn "s" "u" "b" "s" 0)) "s" _
    rfl

end Nexus
